import Mathlib

/-!
Shallow embedding of `openai_executor.py` (class `OpenAIExecutor`) from the
llmvm repository, together with the parts of its collaborators that the
executor observes: the message model of `objects.py`, the persistent cache,
the remote completion endpoint and the tokenizer.  The latter are not part
of the sources under verification, so they are modelled from the spec and
kept abstract (function parameters) where the spec pins down no algorithm.

Machine integers: Python integers are unbounded, so token counts are `ℕ`
and budget arithmetic (which can go negative) is `ℤ`.  Network effects are
made explicit: a dispatch oracle `net : Request → Response` stands for the
remote endpoint and every outcome records the list of requests actually
dispatched, so "no network call occurs" is `dispatched = []`.
-/

namespace LLMVM

/-- A role/content dictionary, the wire form of one message
(`{'role': ..., 'content': ...}`). -/
structure MsgDict where
  role : String
  content : String
deriving DecidableEq, Repr

/-- Modelled from the spec: the message model of `objects.py` (not under
`src/`) — a tagged variant over roles System/User/Assistant, each carrying
text content (§3 Data Model). -/
inductive Message where
  | System (content : String)
  | User (content : String)
  | Assistant (content : String)
deriving DecidableEq, Repr

/-- Modelled from the spec: `Message.role()` returns the role tag of the
variant as a lowercase string. -/
def Message.role : Message → String
  | .System _ => "system"
  | .User _ => "user"
  | .Assistant _ => "assistant"

def Message.content : Message → String
  | .System c => c
  | .User c => c
  | .Assistant c => c

/-- Modelled from the spec: `Message.to_dict` serializes a message to its
role/content dictionary. -/
def Message.to_dict (m : Message) : MsgDict :=
  ⟨m.role, m.content⟩

/-- Modelled from the spec: `Message.from_dict` rebuilds a role-tagged
message from a role/content dictionary, discriminating on the role tag. -/
def Message.from_dict (d : MsgDict) : Message :=
  if d.role = "system" then .System d.content
  else if d.role = "assistant" then .Assistant d.content
  else .User d.content

/-- The Assistant result value returned by `execute`: content, error flag,
the full message context that produced it and the system message used.
Modelled from the spec: `objects.py` is not under `src/`; defaults
(error = false, no system context) follow §3. -/
structure Assistant where
  message : String
  error : Bool
  messages_context : List Message
  system_context : Option Message
deriving DecidableEq, Repr

/-- Modelled from the spec: `PersistentCache` (not under `src/`) is an
external key-value store with `has_key` / `get` / `set`, keyed purely by the
conversation (role + content sequence, order-sensitive), §4.2 and §6.
Modelled as an association list, newest entry first. -/
def PersistentCache : Type := List (List Message × Assistant)

def PersistentCache.get (c : PersistentCache) (k : List Message) : Option Assistant :=
  (List.find? (fun e => e.1 == k) c).map Prod.snd

def PersistentCache.has_key (c : PersistentCache) (k : List Message) : Bool :=
  (c.get k).isSome

def PersistentCache.set (c : PersistentCache) (k : List Message) (v : Assistant) :
    PersistentCache :=
  ((k, v) :: c : List (List Message × Assistant))

/-- A function/tool specification (`Dict[str, str]` in the source), as an
association list of string pairs. -/
abbrev FunctionSpec := List (String × String)

/-- The outgoing remote request: endpoint kind (`chat` = ChatCompletion,
otherwise Completion), model, temperature, max completion tokens, message
list, and the `functions` field, present (`some`) or omitted (`none`). -/
structure Request where
  chat : Bool
  model : String
  temperature : ℚ
  max_tokens : ℕ
  messages : List MsgDict
  functions : Option (List FunctionSpec)
deriving DecidableEq, Repr

/-- One element of the response `choices` list; the code reads its
`message` entry. -/
structure Choice where
  message : MsgDict
deriving DecidableEq, Repr

/-- The remote response dictionary, modelled by exactly what the code
observes: the optional `choices` entry and the number of other top-level
entries, so that both `len(response)` and `response['choices'][0]` are
expressible. -/
structure Response where
  choices : Option (List Choice)
  other_entries : ℕ
deriving DecidableEq, Repr

/-- `len(response)`: the number of top-level entries of the response
dictionary. -/
def Response.len (r : Response) : ℕ :=
  (match r.choices with | some _ => 1 | none => 0) + r.other_entries

/-- The exceptions the executor can raise.  `promptTooLong` carries the four
numbers interpolated into the source's message: message tokens, completion
tokens, total tokens (their sum) and available tokens (`self.max_tokens()`).
`indexError` / `keyError` model Python's own exceptions on bad subscripts. -/
inductive ExecError where
  | promptTooLong (message_tokens completion_tokens total_tokens available_tokens : ℕ)
  | unsupportedFormat
  | indexError
  | keyError
deriving DecidableEq, Repr

/-- The executor's constructor state.  `encoding_for_model` is modelled from
the spec: `tiktoken.encoding_for_model(model).encode` is an external
tokenizer; only the length of its output is used, so it is kept abstract as
model → text → token count. -/
structure OpenAIExecutor where
  openai_key : String
  max_function_calls : ℕ
  model : String
  verbose : Bool
  encoding_for_model : String → String → ℕ

/-- Model budget table (`OpenAIExecutor.max_tokens`): the two recognized
16k identifiers map to 16385, everything else to 4096. -/
def OpenAIExecutor.max_tokens (self : OpenAIExecutor) : ℕ :=
  if self.model = "gpt-3.5-turbo-16k-0613" then 16385
  else if self.model = "gpt-3.5-turbo-16k" then 16385
  else 4096

/-- `OpenAIExecutor.max_prompt_tokens`: total budget minus the reserved
completion tokens minus the fixed 256 margin (Python int arithmetic, may be
negative, hence `ℤ`). -/
def OpenAIExecutor.max_prompt_tokens (self : OpenAIExecutor)
    (completion_token_count : ℕ) : ℤ :=
  (self.max_tokens : ℤ) - (completion_token_count : ℤ) - 256

/-- The three input shapes `calculate_tokens` accepts: a list of `Message`
objects, a list of role/content dictionaries, or a raw string. -/
inductive TokenInput where
  | messages (ms : List Message)
  | dicts (ds : List MsgDict)
  | str (s : String)
deriving DecidableEq, Repr

/-- `json.dumps` of one role/content dictionary. -/
def dumps (d : MsgDict) : String :=
  "\x7b\"role\": \"" ++ d.role ++ "\", \"content\": \"" ++ d.content ++ "\"\x7d"

/-- `json.dumps` of a list of role/content dictionaries. -/
def dumpsList (ds : List MsgDict) : String :=
  "[" ++ String.intercalate ", " (ds.map dumps) ++ "]"

/-- `OpenAIExecutor.calculate_tokens`.  A non-empty `Message` list is
serialized with a trailing `User(extra_str)` dictionary appended; a
non-empty dictionary list is serialized as-is (note: `extra_str` is NOT
used on this branch in the source); anything else falls through to
`str(messages) + extra_str` (`str` of an empty Python list is `"[]"`). -/
def OpenAIExecutor.calculate_tokens (self : OpenAIExecutor)
    (messages : TokenInput) (extra_str : String) : ℕ :=
  match messages with
  | .messages (m :: ms) =>
      self.encoding_for_model self.model
        (dumpsList (((m :: ms).map Message.to_dict) ++
          [Message.to_dict (.User extra_str)]))
  | .dicts (d :: ds) =>
      self.encoding_for_model self.model (dumpsList (d :: ds))
  | .messages [] =>
      self.encoding_for_model self.model ("[]" ++ extra_str)
  | .dicts [] =>
      self.encoding_for_model self.model ("[]" ++ extra_str)
  | .str s =>
      self.encoding_for_model self.model (s ++ extra_str)

/-- Outcome of `execute_direct`: the returned response or raised exception,
plus the list of requests actually dispatched to the network. -/
structure DirectOutcome where
  result : Except ExecError Response
  dispatched : List Request
deriving Repr

/-- The default of `execute_direct`'s `model` parameter; `execute` never
overrides it. -/
def default_model : String := "gpt-3.5-turbo-16k-0613"

/-- `OpenAIExecutor.execute_direct`: validate the token budget (against the
configured model), then reject functions in non-chat format, then dispatch
with the `functions` field included exactly when the list is non-empty
(chat) or never (non-chat). -/
def OpenAIExecutor.execute_direct (self : OpenAIExecutor) (net : Request → Response)
    (messages : List MsgDict) (functions : List FunctionSpec) (model : String)
    (max_completion_tokens : ℕ) (temperature : ℚ) (chat_format : Bool) :
    DirectOutcome :=
  let message_tokens := self.calculate_tokens (.dicts messages) ""
  if (message_tokens : ℤ) > self.max_prompt_tokens max_completion_tokens then
    ⟨.error (.promptTooLong message_tokens max_completion_tokens
        (message_tokens + max_completion_tokens) self.max_tokens), []⟩
  else if !chat_format && decide (0 < functions.length) then
    ⟨.error .unsupportedFormat, []⟩
  else if chat_format then
    if functions.isEmpty then
      let req : Request := ⟨true, model, temperature, max_completion_tokens, messages, none⟩
      ⟨.ok (net req), [req]⟩
    else
      let req : Request := ⟨true, model, temperature, max_completion_tokens, messages,
        some functions⟩
      ⟨.ok (net req), [req]⟩
  else
    let req : Request := ⟨false, model, temperature, max_completion_tokens, messages, none⟩
    ⟨.ok (net req), [req]⟩

/-- The default system message synthesized when the conversation has none. -/
def default_system_message : Message := .System "You are a helpful assistant."

/-- `last(lambda x: x.role() == 'system', messages)`: the last system
message of the conversation, if any. -/
def last_system_message (messages : List Message) : Option Message :=
  (messages.filter (fun m => m.role == "system")).getLast?

/-- The fresh outgoing message list built on the cache-miss path of
`execute`: the (last) system message — or the synthesized default — first,
then every non-system message of the conversation in order, serialized. -/
def build_messages_list (messages : List Message) : List MsgDict :=
  Message.to_dict ((last_system_message messages).getD default_system_message) ::
    (messages.filter (fun m => m.role != "system")).map Message.to_dict

/-- Outcome of `execute`: result or exception, the cache after the call,
the requests dispatched, and the caller's conversation after the call
(frame: the executor only ever reads it). -/
structure ExecOutcome where
  result : Except ExecError Assistant
  cache : PersistentCache
  dispatched : List Request
  caller_messages : List Message

/-- The post-dispatch normalization of `execute` (factored out of the tail
of the Python method): if the response dictionary is empty
(`len(chat_response) == 0`), return the error-flagged Assistant with the
fixed diagnostic content, the full outgoing list as context and the system
message used — without touching the cache; otherwise read
`chat_response['choices'][0]` (KeyError on a missing `choices` entry,
IndexError on an empty choices list), append its message to the outgoing
list, convert the whole list back into messages, build the success
Assistant from its last element and store it keyed by the caller's
conversation. -/
def normalize_response (cache : PersistentCache) (messages : List Message)
    (messages_list : List MsgDict) (system_message : Message)
    (disp : List Request) (chat_response : Response) : ExecOutcome :=
  if chat_response.len = 0 then
    ⟨.ok ⟨"The model could not execute the query.", true,
        messages_list.map Message.from_dict, some system_message⟩,
      cache, disp, messages⟩
  else
    match chat_response.choices with
    | none => ⟨.error .keyError, cache, disp, messages⟩
    | some [] => ⟨.error .indexError, cache, disp, messages⟩
    | some (c :: _) =>
      let conversation := (messages_list ++ [c.message]).map Message.from_dict
      let assistant : Assistant :=
        ⟨(conversation.getLast?.getD default_system_message).content, false,
          conversation, none⟩
      ⟨.ok assistant, cache.set messages assistant, disp, messages⟩

/-- `OpenAIExecutor.execute`.  Cache hit returns the stored Assistant with
no further work.  On a miss: pick the last system message (or synthesize the
default), evaluate the debug-log expression `str(messages[-1])` (IndexError
on an empty conversation), build the fresh outgoing list, call
`execute_direct` with all defaults except `max_completion_tokens`,
`chat_format=True` and `temperature`, then normalize the response
(`normalize_response`); an exception from `execute_direct` propagates. -/
def OpenAIExecutor.execute (self : OpenAIExecutor) (net : Request → Response)
    (cache : PersistentCache) (messages : List Message)
    (temperature : ℚ) (max_completion_tokens : ℕ) : ExecOutcome :=
  match cache.get messages with
  | some a => ⟨.ok a, cache, [], messages⟩
  | none =>
    if messages.isEmpty then
      ⟨.error .indexError, cache, [], messages⟩
    else
      let system_message := (last_system_message messages).getD default_system_message
      let messages_list := build_messages_list messages
      match self.execute_direct net messages_list [] default_model
        max_completion_tokens temperature true with
      | ⟨.error e, disp⟩ => ⟨.error e, cache, disp, messages⟩
      | ⟨.ok chat_response, disp⟩ =>
        normalize_response cache messages messages_list system_message disp chat_response

/-! ### Basic lemmas about the embedded definitions -/

theorem to_dict_role (m : Message) : (Message.to_dict m).role = m.role := rfl

theorem last_system_message_role {messages : List Message} {s : Message}
    (h : last_system_message messages = some s) : s.role = "system" := by
  have hm : s ∈ messages.filter (fun m => m.role == "system") :=
    List.mem_of_mem_getLast? (show s ∈ _ by simpa [last_system_message] using h)
  simpa using (List.mem_filter.mp hm).2

theorem build_messages_list_head_role (messages : List Message) :
    ((build_messages_list messages).head?.map MsgDict.role) = some "system" := by
  cases h : last_system_message messages with
  | none =>
      simp [build_messages_list, h, default_system_message, Message.to_dict, Message.role]
  | some s =>
      simp [build_messages_list, h, to_dict_role, last_system_message_role h]

theorem build_messages_list_tail_no_system (messages : List Message) :
    ((build_messages_list messages).tail.filter (fun d => d.role == "system")) = [] := by
  simp only [build_messages_list, List.tail_cons]
  refine List.filter_eq_nil_iff.mpr ?_
  intro d hd
  obtain ⟨m, hm, rfl⟩ := List.mem_map.mp hd
  have hrole := (List.mem_filter.mp hm).2
  simp only [bne_iff_ne, ne_eq] at hrole
  simp [to_dict_role, hrole]

theorem build_messages_list_tail (messages : List Message) :
    (build_messages_list messages).tail =
      (messages.filter (fun m => m.role != "system")).map Message.to_dict := rfl

theorem cache_get_set (c : PersistentCache) (k : List Message) (v : Assistant) :
    (c.set k v).get k = some v := by
  simp [PersistentCache.get, PersistentCache.set, List.find?]

/-! ### Path lemmas for execute_direct and execute -/

theorem execute_direct_too_long (self : OpenAIExecutor) (net : Request → Response)
    (msgs : List MsgDict) (fns : List FunctionSpec) (model : String) (mct : ℕ)
    (t : ℚ) (cf : Bool)
    (h : (self.calculate_tokens (.dicts msgs) "" : ℤ) > self.max_prompt_tokens mct) :
    self.execute_direct net msgs fns model mct t cf =
      ⟨.error (.promptTooLong (self.calculate_tokens (.dicts msgs) "") mct
          (self.calculate_tokens (.dicts msgs) "" + mct) self.max_tokens), []⟩ := by
  simp only [OpenAIExecutor.execute_direct]
  rw [if_pos h]

theorem execute_direct_chat_fit (self : OpenAIExecutor) (net : Request → Response)
    (msgs : List MsgDict) (fns : List FunctionSpec) (model : String) (mct : ℕ) (t : ℚ)
    (h : ¬((self.calculate_tokens (.dicts msgs) "" : ℤ) > self.max_prompt_tokens mct)) :
    self.execute_direct net msgs fns model mct t true =
      (if fns.isEmpty then
        ⟨.ok (net ⟨true, model, t, mct, msgs, none⟩), [⟨true, model, t, mct, msgs, none⟩]⟩
      else
        ⟨.ok (net ⟨true, model, t, mct, msgs, some fns⟩),
          [⟨true, model, t, mct, msgs, some fns⟩]⟩) := by
  simp only [OpenAIExecutor.execute_direct]
  rw [if_neg h]
  rfl

theorem execute_direct_nonchat_functions (self : OpenAIExecutor) (net : Request → Response)
    (msgs : List MsgDict) (fns : List FunctionSpec) (model : String) (mct : ℕ) (t : ℚ)
    (hfit : ¬((self.calculate_tokens (.dicts msgs) "" : ℤ) > self.max_prompt_tokens mct))
    (hfn : fns ≠ []) :
    self.execute_direct net msgs fns model mct t false =
      ⟨.error .unsupportedFormat, []⟩ := by
  simp only [OpenAIExecutor.execute_direct]
  rw [if_neg hfit]
  have hc : (!false && decide (0 < fns.length)) = true := by
    simp [List.length_pos, hfn]
  rw [if_pos hc]

theorem execute_hit (self : OpenAIExecutor) (net : Request → Response)
    (cache : PersistentCache) (messages : List Message) (t : ℚ) (mct : ℕ) (a : Assistant)
    (h : cache.get messages = some a) :
    self.execute net cache messages t mct = ⟨.ok a, cache, [], messages⟩ := by
  unfold OpenAIExecutor.execute
  rw [h]

theorem execute_empty_conversation (self : OpenAIExecutor) (net : Request → Response)
    (cache : PersistentCache) (t : ℚ) (mct : ℕ)
    (h : cache.get [] = none) :
    self.execute net cache [] t mct = ⟨.error .indexError, cache, [], []⟩ := by
  unfold OpenAIExecutor.execute
  rw [h]
  rfl

theorem execute_miss_error (self : OpenAIExecutor) (net : Request → Response)
    (cache : PersistentCache) (messages : List Message) (t : ℚ) (mct : ℕ)
    (e : ExecError) (disp : List Request)
    (hmiss : cache.get messages = none) (hne : messages ≠ [])
    (hd : self.execute_direct net (build_messages_list messages) [] default_model mct t true =
      ⟨.error e, disp⟩) :
    self.execute net cache messages t mct = ⟨.error e, cache, disp, messages⟩ := by
  unfold OpenAIExecutor.execute
  rw [hmiss]
  have hie : messages.isEmpty = false := by simp [List.isEmpty_iff, hne]
  rw [hie]
  simp only [Bool.false_eq_true, if_false, hd]

theorem execute_miss_ok (self : OpenAIExecutor) (net : Request → Response)
    (cache : PersistentCache) (messages : List Message) (t : ℚ) (mct : ℕ)
    (r : Response) (disp : List Request)
    (hmiss : cache.get messages = none) (hne : messages ≠ [])
    (hd : self.execute_direct net (build_messages_list messages) [] default_model mct t true =
      ⟨.ok r, disp⟩) :
    self.execute net cache messages t mct =
      normalize_response cache messages (build_messages_list messages)
        ((last_system_message messages).getD default_system_message) disp r := by
  unfold OpenAIExecutor.execute
  rw [hmiss]
  have hie : messages.isEmpty = false := by simp [List.isEmpty_iff, hne]
  rw [hie]
  simp only [Bool.false_eq_true, if_false, hd]

theorem normalize_response_dispatched (cache : PersistentCache) (messages : List Message)
    (ml : List MsgDict) (s : Message) (disp : List Request) (r : Response) :
    (normalize_response cache messages ml s disp r).dispatched = disp := by
  unfold normalize_response
  split
  · rfl
  · split <;> rfl

theorem normalize_response_caller (cache : PersistentCache) (messages : List Message)
    (ml : List MsgDict) (s : Message) (disp : List Request) (r : Response) :
    (normalize_response cache messages ml s disp r).caller_messages = messages := by
  unfold normalize_response
  split
  · rfl
  · split <;> rfl

/-- Every request `execute` ever dispatches is the chat request over the
fresh outgoing message list, with `execute_direct`'s default model and no
functions field. -/
theorem execute_dispatched_eq (self : OpenAIExecutor) (net : Request → Response)
    (cache : PersistentCache) (messages : List Message) (t : ℚ) (mct : ℕ) (req : Request)
    (hreq : req ∈ (self.execute net cache messages t mct).dispatched) :
    req = ⟨true, default_model, t, mct, build_messages_list messages, none⟩ := by
  cases hget : cache.get messages with
  | some a =>
      rw [execute_hit self net cache messages t mct a hget] at hreq
      simp at hreq
  | none =>
      by_cases hne : messages = []
      · subst hne
        rw [execute_empty_conversation self net cache t mct hget] at hreq
        simp at hreq
      · by_cases hfit : (self.calculate_tokens (.dicts (build_messages_list messages)) "" : ℤ) >
            self.max_prompt_tokens mct
        · rw [execute_miss_error self net cache messages t mct _ []
            hget hne (execute_direct_too_long self net _ [] default_model mct t true hfit)] at hreq
          simp at hreq
        · have hd := execute_direct_chat_fit self net (build_messages_list messages) []
            default_model mct t hfit
          simp only [List.isEmpty_nil, if_true] at hd
          rw [execute_miss_ok self net cache messages t mct _ _ hget hne hd,
            normalize_response_dispatched] at hreq
          simpa using hreq

/-! ### Concrete fixtures used by witnesses and counterexamples -/

/-- An executor over the default model whose (abstract) tokenizer returns 0
for every text: every prompt fits the budget. -/
def sample_executor : OpenAIExecutor :=
  ⟨"", 5, "gpt-3.5-turbo-16k-0613", true, fun _ _ => 0⟩

/-- An executor whose tokenizer counts one token per character. -/
def sample_len_executor : OpenAIExecutor :=
  ⟨"", 5, "gpt-3.5-turbo-16k-0613", true, fun _ s => s.length⟩

/-- An executor whose tokenizer returns 20000 for every text: every prompt
overflows the 16385-token budget. -/
def sample_big_executor : OpenAIExecutor :=
  ⟨"", 5, "gpt-3.5-turbo-16k-0613", true, fun _ _ => 20000⟩

/-- An executor configured with an identifier outside the budget table. -/
def sample_unknown_executor : OpenAIExecutor :=
  ⟨"", 5, "gpt-4", true, fun _ _ => 0⟩

/-- An executor configured with the other recognized 16k identifier. -/
def sample_16k_executor : OpenAIExecutor :=
  ⟨"", 5, "gpt-3.5-turbo-16k", true, fun _ _ => 0⟩

/-- A remote endpoint that always answers with one choice. -/
def net_one_choice : Request → Response :=
  fun _ => ⟨some [⟨⟨"assistant", "4"⟩⟩], 1⟩

/-- A remote endpoint that always answers with the empty dictionary. -/
def net_empty_dict : Request → Response :=
  fun _ => ⟨none, 0⟩

/-- A remote endpoint that always answers with a `choices` entry holding an
empty list (a response that contains zero choices but is itself non-empty). -/
def net_zero_choices : Request → Response :=
  fun _ => ⟨some [], 0⟩

def empty_cache : PersistentCache := ([] : List (List Message × Assistant))

/-- A conversation with two system messages away from position 0. -/
def sample_conversation : List Message :=
  [.User "a", .System "S1", .User "b", .System "S2", .User "c"]

/-- The request `execute` dispatches for `sample_conversation`. -/
def sample_conversation_request : Request :=
  ⟨true, "gpt-3.5-turbo-16k-0613", 0, 2048,
    [⟨"system", "S2"⟩, ⟨"user", "a"⟩, ⟨"user", "b"⟩, ⟨"user", "c"⟩], none⟩

/-- The request `execute` dispatches for the one-user-message conversation
`[User "hi"]` with 1024 completion tokens. -/
def sample_hi_request : Request :=
  ⟨true, "gpt-3.5-turbo-16k-0613", 0, 1024,
    [⟨"system", "You are a helpful assistant."⟩, ⟨"user", "hi"⟩], none⟩

/-! ### Claim theorems -/

/-- C1: on the cache-miss path, every request `execute` dispatches carries a
message list whose position 0 is its unique system message — the last
system message of the caller's conversation, or the synthesized default
when there is none — followed by the non-system messages in their original
relative order. -/
theorem execute_outgoing_system_normalization
    (self : OpenAIExecutor) (net : Request → Response) (cache : PersistentCache)
    (messages : List Message) (t : ℚ) (mct : ℕ) (req : Request)
    (hreq : req ∈ (self.execute net cache messages t mct).dispatched) :
    (req.messages.head?.map MsgDict.role = some "system")
    ∧ (req.messages.tail.filter (fun d => d.role == "system") = [])
    ∧ req.messages.tail = (messages.filter (fun m => m.role != "system")).map Message.to_dict
    ∧ (∀ s, last_system_message messages = some s →
        req.messages.head? = some (Message.to_dict s))
    ∧ (last_system_message messages = none →
        req.messages.head? = some (Message.to_dict default_system_message)) := by
  have h := execute_dispatched_eq self net cache messages t mct req hreq
  subst h
  refine ⟨build_messages_list_head_role messages, build_messages_list_tail_no_system messages,
    build_messages_list_tail messages, ?_, ?_⟩
  · intro s hs
    simp [build_messages_list, hs]
  · intro hs
    simp [build_messages_list, hs]

theorem execute_outgoing_system_normalization_witness :
    (sample_conversation_request ∈
      (sample_executor.execute net_one_choice empty_cache sample_conversation 0 2048).dispatched)
    ∧ ((sample_conversation_request.messages.head?.map MsgDict.role = some "system")
      ∧ (sample_conversation_request.messages.tail.filter (fun d => d.role == "system") = [])
      ∧ sample_conversation_request.messages.tail =
          (sample_conversation.filter (fun m => m.role != "system")).map Message.to_dict
      ∧ (∀ s, last_system_message sample_conversation = some s →
          sample_conversation_request.messages.head? = some (Message.to_dict s))
      ∧ (last_system_message sample_conversation = none →
          sample_conversation_request.messages.head? =
            some (Message.to_dict default_system_message))) :=
  ⟨by decide, execute_outgoing_system_normalization sample_executor net_one_choice empty_cache
    sample_conversation 0 2048 sample_conversation_request (by decide)⟩

/-- C2: whenever the measured token count of the messages plus the
requested completion tokens plus the 256 margin exceeds the configured
model's total budget, `execute_direct` dispatches nothing and raises
`promptTooLong` carrying the measured count, the requested completion
count, their sum and the model's total budget. -/
theorem execute_direct_prompt_too_long
    (self : OpenAIExecutor) (net : Request → Response) (msgs : List MsgDict)
    (fns : List FunctionSpec) (model : String) (mct : ℕ) (t : ℚ) (cf : Bool)
    (h : (self.calculate_tokens (.dicts msgs) "" : ℤ) + (mct : ℤ) + 256 >
      (self.max_tokens : ℤ)) :
    self.execute_direct net msgs fns model mct t cf =
      ⟨.error (.promptTooLong (self.calculate_tokens (.dicts msgs) "") mct
          (self.calculate_tokens (.dicts msgs) "" + mct) self.max_tokens), []⟩ := by
  apply execute_direct_too_long
  unfold OpenAIExecutor.max_prompt_tokens
  omega

theorem execute_direct_prompt_too_long_witness :
    ((sample_big_executor.calculate_tokens (.dicts [⟨"user", "hi"⟩]) "" : ℤ) + (100 : ℤ) + 256 >
      (sample_big_executor.max_tokens : ℤ))
    ∧ sample_big_executor.execute_direct net_one_choice [⟨"user", "hi"⟩] [] default_model
        100 0 true =
      ⟨.error (.promptTooLong
          (sample_big_executor.calculate_tokens (.dicts [⟨"user", "hi"⟩]) "") 100
          (sample_big_executor.calculate_tokens (.dicts [⟨"user", "hi"⟩]) "" + 100)
          sample_big_executor.max_tokens), []⟩ :=
  ⟨by decide, execute_direct_prompt_too_long sample_big_executor net_one_choice
    [⟨"user", "hi"⟩] [] default_model 100 0 true (by decide)⟩

/-- C5: with the non-chat request shape and a non-empty function list (and
messages that fit the token budget), `execute_direct` dispatches nothing
and raises the unsupported-format error. -/
theorem execute_direct_unsupported_format
    (self : OpenAIExecutor) (net : Request → Response) (msgs : List MsgDict)
    (fns : List FunctionSpec) (model : String) (mct : ℕ) (t : ℚ)
    (hfit : ¬((self.calculate_tokens (.dicts msgs) "" : ℤ) > self.max_prompt_tokens mct))
    (hfn : fns ≠ []) :
    self.execute_direct net msgs fns model mct t false =
      ⟨.error .unsupportedFormat, []⟩ :=
  execute_direct_nonchat_functions self net msgs fns model mct t hfit hfn

theorem execute_direct_unsupported_format_witness :
    (¬((sample_executor.calculate_tokens (.dicts [⟨"user", "hi"⟩]) "" : ℤ) >
        sample_executor.max_prompt_tokens 100))
    ∧ ([[("name", "f")]] : List FunctionSpec) ≠ []
    ∧ sample_executor.execute_direct net_one_choice [⟨"user", "hi"⟩] [[("name", "f")]]
        default_model 100 0 false = ⟨.error .unsupportedFormat, []⟩ :=
  ⟨by decide, by decide, execute_direct_unsupported_format sample_executor net_one_choice
    [⟨"user", "hi"⟩] [[("name", "f")]] default_model 100 0 (by decide) (by decide)⟩

/-- C6: on the chat path past validation, the single dispatched request
carries the `functions` field exactly when the supplied list is non-empty;
an empty list is omitted (`none`), not sent as an empty collection. -/
theorem execute_direct_functions_omitted_iff_empty
    (self : OpenAIExecutor) (net : Request → Response) (msgs : List MsgDict)
    (fns : List FunctionSpec) (model : String) (mct : ℕ) (t : ℚ)
    (hfit : ¬((self.calculate_tokens (.dicts msgs) "" : ℤ) > self.max_prompt_tokens mct)) :
    ∃ req : Request,
      (self.execute_direct net msgs fns model mct t true).dispatched = [req]
      ∧ req.messages = msgs
      ∧ (req.functions = none ↔ fns = [])
      ∧ (fns ≠ [] → req.functions = some fns) := by
  rw [execute_direct_chat_fit self net msgs fns model mct t hfit]
  cases fns with
  | nil => exact ⟨⟨true, model, t, mct, msgs, none⟩, by simp, rfl, by simp, by simp⟩
  | cons f fs =>
      refine ⟨⟨true, model, t, mct, msgs, some (f :: fs)⟩, ?_, rfl, by simp, fun _ => rfl⟩
      simp [List.isEmpty]

theorem execute_direct_functions_omitted_iff_empty_witness :
    (¬((sample_executor.calculate_tokens (.dicts [⟨"user", "hi"⟩]) "" : ℤ) >
        sample_executor.max_prompt_tokens 100))
    ∧ (∃ req : Request,
        (sample_executor.execute_direct net_one_choice [⟨"user", "hi"⟩] [[("name", "f")]]
          default_model 100 0 true).dispatched = [req]
        ∧ req.messages = [⟨"user", "hi"⟩]
        ∧ (req.functions = none ↔ ([[("name", "f")]] : List FunctionSpec) = [])
        ∧ (([[("name", "f")]] : List FunctionSpec) ≠ [] →
            req.functions = some [[("name", "f")]])) :=
  ⟨by decide, execute_direct_functions_omitted_iff_empty sample_executor net_one_choice
    [⟨"user", "hi"⟩] [[("name", "f")]] default_model 100 0 (by decide)⟩

/-- C7: `max_prompt_tokens` is the total budget minus the reserved
completion tokens minus 256, and the budget table maps the two recognized
16k identifiers to 16385 and every other identifier to 4096. -/
theorem max_tokens_budget_table (self : OpenAIExecutor) (reserved : ℕ) :
    self.max_prompt_tokens reserved = (self.max_tokens : ℤ) - (reserved : ℤ) - 256
    ∧ (self.model = "gpt-3.5-turbo-16k-0613" → self.max_tokens = 16385)
    ∧ (self.model = "gpt-3.5-turbo-16k" → self.max_tokens = 16385)
    ∧ (self.model ≠ "gpt-3.5-turbo-16k-0613" → self.model ≠ "gpt-3.5-turbo-16k" →
        self.max_tokens = 4096) := by
  refine ⟨rfl, ?_, ?_, ?_⟩
  · intro h
    simp [OpenAIExecutor.max_tokens, h]
  · intro h
    simp [OpenAIExecutor.max_tokens, h]
  · intro h1 h2
    simp [OpenAIExecutor.max_tokens, h1, h2]

theorem max_tokens_budget_table_witness :
    sample_executor.max_tokens = 16385
    ∧ sample_16k_executor.max_tokens = 16385
    ∧ sample_unknown_executor.max_tokens = 4096
    ∧ sample_unknown_executor.max_prompt_tokens 1024 =
        (sample_unknown_executor.max_tokens : ℤ) - (1024 : ℤ) - 256 :=
  ⟨(max_tokens_budget_table sample_executor 0).2.1 rfl,
    (max_tokens_budget_table sample_16k_executor 0).2.2.1 rfl,
    (max_tokens_budget_table sample_unknown_executor 0).2.2.2 (by decide) (by decide),
    (max_tokens_budget_table sample_unknown_executor 1024).1⟩

/-- C9: `execute` never mutates the caller's conversation: on every path
(hit, empty conversation, validation error, degraded response, success) the
caller's list after the call is the one passed in. -/
theorem execute_preserves_caller_conversation
    (self : OpenAIExecutor) (net : Request → Response) (cache : PersistentCache)
    (messages : List Message) (t : ℚ) (mct : ℕ) :
    (self.execute net cache messages t mct).caller_messages = messages := by
  cases hget : cache.get messages with
  | some a => rw [execute_hit self net cache messages t mct a hget]
  | none =>
      by_cases hne : messages = []
      · subst hne
        rw [execute_empty_conversation self net cache t mct hget]
      · cases hd : self.execute_direct net (build_messages_list messages) [] default_model
            mct t true with
        | mk res disp =>
          cases res with
          | error e =>
              rw [execute_miss_error self net cache messages t mct e disp hget hne hd]
          | ok r =>
              rw [execute_miss_ok self net cache messages t mct r disp hget hne hd,
                normalize_response_caller]

/-- C10: every request `execute` dispatches names the constant model
`gpt-3.5-turbo-16k-0613` (the `execute_direct` parameter default),
independent of the executor's configured model: two executors that both
dispatch for the same conversation dispatch the same request. -/
theorem execute_dispatches_constant_model
    (e1 e2 : OpenAIExecutor) (net1 net2 : Request → Response)
    (c1 c2 : PersistentCache) (messages : List Message) (t : ℚ) (mct : ℕ)
    (r1 r2 : Request)
    (h1 : (e1.execute net1 c1 messages t mct).dispatched = [r1])
    (h2 : (e2.execute net2 c2 messages t mct).dispatched = [r2]) :
    r1.model = "gpt-3.5-turbo-16k-0613" ∧ r1 = r2 := by
  have m1 : r1 ∈ (e1.execute net1 c1 messages t mct).dispatched := by
    rw [h1]
    exact List.mem_singleton.mpr rfl
  have m2 : r2 ∈ (e2.execute net2 c2 messages t mct).dispatched := by
    rw [h2]
    exact List.mem_singleton.mpr rfl
  have q1 := execute_dispatched_eq e1 net1 c1 messages t mct r1 m1
  have q2 := execute_dispatched_eq e2 net2 c2 messages t mct r2 m2
  constructor
  · rw [q1]
    rfl
  · rw [q1, q2]

theorem execute_dispatches_constant_model_witness :
    ((sample_unknown_executor.execute net_one_choice empty_cache [.User "hi"] 0 1024).dispatched
      = [sample_hi_request])
    ∧ ((sample_16k_executor.execute net_empty_dict empty_cache [.User "hi"] 0 1024).dispatched
      = [sample_hi_request])
    ∧ (sample_hi_request.model = "gpt-3.5-turbo-16k-0613"
      ∧ sample_hi_request = sample_hi_request) :=
  ⟨by decide, by decide, execute_dispatches_constant_model sample_unknown_executor
    sample_16k_executor net_one_choice net_empty_dict empty_cache empty_cache
    [.User "hi"] 0 1024 sample_hi_request sample_hi_request (by decide) (by decide)⟩

/-- C3 counterexample: a remote response that contains zero choices but is
not the empty dictionary (`{'choices': []}`, one top-level entry) slips
past the `len(chat_response) == 0` guard, and `execute` raises IndexError
at `chat_response['choices'][0]` instead of returning an error-flagged
Assistant. -/
theorem execute_zero_choices_raises :
    (net_zero_choices sample_hi_request).choices = some []
    ∧ (sample_executor.execute net_zero_choices empty_cache
        [Message.User "hi"] 0 2048).result = .error .indexError :=
  ⟨rfl, rfl⟩

/-- C3 (amended): the degraded branch triggers exactly when the response
dictionary itself is empty (`len(chat_response) == 0`); in that case
`execute` does not raise — it returns an Assistant with `error = true`, the
fixed diagnostic content, context set to the full outgoing list (system
message included) and the system message used, and it leaves the cache
untouched. -/
theorem execute_empty_response_degraded
    (self : OpenAIExecutor) (net : Request → Response) (cache : PersistentCache)
    (messages : List Message) (t : ℚ) (mct : ℕ)
    (hmiss : cache.get messages = none) (hne : messages ≠ [])
    (hfit : ¬((self.calculate_tokens (.dicts (build_messages_list messages)) "" : ℤ) >
        self.max_prompt_tokens mct))
    (hlen : (net ⟨true, default_model, t, mct, build_messages_list messages, none⟩).len = 0) :
    self.execute net cache messages t mct =
      ⟨.ok ⟨"The model could not execute the query.", true,
          (build_messages_list messages).map Message.from_dict,
          some ((last_system_message messages).getD default_system_message)⟩,
        cache, [⟨true, default_model, t, mct, build_messages_list messages, none⟩],
        messages⟩ := by
  have hd := execute_direct_chat_fit self net (build_messages_list messages) [] default_model
    mct t hfit
  simp only [List.isEmpty_nil, if_true] at hd
  rw [execute_miss_ok self net cache messages t mct _ _ hmiss hne hd]
  unfold normalize_response
  rw [if_pos hlen]

theorem execute_empty_response_degraded_witness :
    (empty_cache.get [Message.User "hi"] = none)
    ∧ ([Message.User "hi"] ≠ ([] : List Message))
    ∧ (¬((sample_executor.calculate_tokens
          (.dicts (build_messages_list [Message.User "hi"])) "" : ℤ) >
        sample_executor.max_prompt_tokens 2048))
    ∧ ((net_empty_dict ⟨true, default_model, 0, 2048,
        build_messages_list [Message.User "hi"], none⟩).len = 0)
    ∧ sample_executor.execute net_empty_dict empty_cache [Message.User "hi"] 0 2048 =
        ⟨.ok ⟨"The model could not execute the query.", true,
            (build_messages_list [Message.User "hi"]).map Message.from_dict,
            some ((last_system_message [Message.User "hi"]).getD default_system_message)⟩,
          empty_cache,
          [⟨true, default_model, 0, 2048, build_messages_list [Message.User "hi"], none⟩],
          [Message.User "hi"]⟩ :=
  ⟨by decide, by decide, by decide, by decide,
    execute_empty_response_degraded sample_executor net_empty_dict empty_cache
      [Message.User "hi"] 0 2048 (by decide) (by decide) (by decide) (by decide)⟩

/-- C4: on an initial cache miss, a call that succeeds non-degraded makes
exactly one dispatch and stores its Assistant keyed by the caller's
conversation; a second call with the byte-identical conversation returns
exactly that Assistant with no dispatch and no cache change. -/
theorem execute_cache_memoization
    (self : OpenAIExecutor) (net : Request → Response) (cache : PersistentCache)
    (messages : List Message) (t : ℚ) (mct : ℕ) (a : Assistant)
    (hmiss : cache.get messages = none)
    (hfirst : (self.execute net cache messages t mct).result = .ok a)
    (herr : a.error = false) :
    (self.execute net cache messages t mct).dispatched.length = 1
    ∧ (self.execute net cache messages t mct).cache.get messages = some a
    ∧ self.execute net (self.execute net cache messages t mct).cache messages t mct =
        ⟨.ok a, (self.execute net cache messages t mct).cache, [], messages⟩ := by
  by_cases hne : messages = []
  · subst hne
    rw [execute_empty_conversation self net cache t mct hmiss] at hfirst
    simp at hfirst
  · by_cases hfit : (self.calculate_tokens (.dicts (build_messages_list messages)) "" : ℤ) >
        self.max_prompt_tokens mct
    · rw [execute_miss_error self net cache messages t mct _ [] hmiss hne
        (execute_direct_too_long self net _ [] default_model mct t true hfit)] at hfirst
      simp at hfirst
    · have hd := execute_direct_chat_fit self net (build_messages_list messages) []
        default_model mct t hfit
      simp only [List.isEmpty_nil, if_true] at hd
      have hex := execute_miss_ok self net cache messages t mct _ _ hmiss hne hd
      by_cases hlen :
          (net ⟨true, default_model, t, mct, build_messages_list messages, none⟩).len = 0
      · rw [hex] at hfirst
        unfold normalize_response at hfirst
        rw [if_pos hlen] at hfirst
        obtain rfl := Except.ok.inj hfirst
        simp at herr
      · cases hc : (net ⟨true, default_model, t, mct,
            build_messages_list messages, none⟩).choices with
        | none =>
            rw [hex] at hfirst
            unfold normalize_response at hfirst
            rw [if_neg hlen, hc] at hfirst
            simp at hfirst
        | some cs =>
            cases cs with
            | nil =>
                rw [hex] at hfirst
                unfold normalize_response at hfirst
                rw [if_neg hlen, hc] at hfirst
                simp at hfirst
            | cons c rest =>
                have hnorm : normalize_response cache messages (build_messages_list messages)
                    ((last_system_message messages).getD default_system_message)
                    [⟨true, default_model, t, mct, build_messages_list messages, none⟩]
                    (net ⟨true, default_model, t, mct, build_messages_list messages, none⟩) =
                    ⟨.ok ⟨((((build_messages_list messages) ++ [c.message]).map
                          Message.from_dict).getLast?.getD default_system_message).content,
                        false,
                        ((build_messages_list messages) ++ [c.message]).map Message.from_dict,
                        none⟩,
                      cache.set messages
                        ⟨((((build_messages_list messages) ++ [c.message]).map
                            Message.from_dict).getLast?.getD default_system_message).content,
                          false,
                          ((build_messages_list messages) ++ [c.message]).map Message.from_dict,
                          none⟩,
                      [⟨true, default_model, t, mct, build_messages_list messages, none⟩],
                      messages⟩ := by
                  unfold normalize_response
                  rw [if_neg hlen, hc]
                have hexec := hex.trans hnorm
                rw [hexec] at hfirst
                obtain rfl := Except.ok.inj hfirst
                refine ⟨?_, ?_, ?_⟩
                · rw [hexec]
                  rfl
                · rw [hexec]
                  exact cache_get_set cache messages _
                · rw [hexec]
                  exact execute_hit self net _ messages t mct _
                    (cache_get_set cache messages _)

theorem execute_cache_memoization_witness :
    (empty_cache.get [Message.User "What is 2+2?"] = none)
    ∧ ((sample_executor.execute net_one_choice empty_cache
        [Message.User "What is 2+2?"] 0 2048).result =
        .ok ⟨"4", false,
          [.System "You are a helpful assistant.", .User "What is 2+2?", .Assistant "4"],
          none⟩)
    ∧ ((⟨"4", false,
          [.System "You are a helpful assistant.", .User "What is 2+2?", .Assistant "4"],
          none⟩ : Assistant).error = false)
    ∧ ((sample_executor.execute net_one_choice empty_cache
          [Message.User "What is 2+2?"] 0 2048).dispatched.length = 1
      ∧ (sample_executor.execute net_one_choice empty_cache
          [Message.User "What is 2+2?"] 0 2048).cache.get [Message.User "What is 2+2?"] =
          some ⟨"4", false,
            [.System "You are a helpful assistant.", .User "What is 2+2?", .Assistant "4"],
            none⟩
      ∧ sample_executor.execute net_one_choice
          (sample_executor.execute net_one_choice empty_cache
            [Message.User "What is 2+2?"] 0 2048).cache
          [Message.User "What is 2+2?"] 0 2048 =
          ⟨.ok ⟨"4", false,
              [.System "You are a helpful assistant.", .User "What is 2+2?", .Assistant "4"],
              none⟩,
            (sample_executor.execute net_one_choice empty_cache
              [Message.User "What is 2+2?"] 0 2048).cache,
            [], [Message.User "What is 2+2?"]⟩) :=
  ⟨rfl, rfl, rfl,
    execute_cache_memoization sample_executor net_one_choice empty_cache
      [Message.User "What is 2+2?"] 0 2048
      ⟨"4", false,
        [.System "You are a helpful assistant.", .User "What is 2+2?", .Assistant "4"],
        none⟩
      rfl rfl rfl⟩

/-- C8 counterexample: with a per-character tokenizer, `extra_str` has no
effect on the count of a non-empty dictionary-list input, although the same
tokenizer is sensitive to it on the raw-string shape — so the count does
not account for `extra_str` in all input shapes. -/
theorem calculate_tokens_extra_ignored_for_dicts :
    sample_len_executor.calculate_tokens (.dicts [⟨"user", "hi"⟩]) "XYZ"
      = sample_len_executor.calculate_tokens (.dicts [⟨"user", "hi"⟩]) ""
    ∧ sample_len_executor.calculate_tokens (.str "hi") "XYZ"
      ≠ sample_len_executor.calculate_tokens (.str "hi") "" := by
  decide

/-- C8 (amended): `calculate_tokens` appends `extra_str` before counting
for non-empty `Message` lists (as a trailing user-role dictionary), for raw
strings, and for empty lists (string fallback `str(messages) + extra_str`),
but ignores `extra_str` entirely for non-empty dictionary-list inputs. -/
theorem calculate_tokens_extra_str_shapes (self : OpenAIExecutor) :
    (∀ m ms extra, self.calculate_tokens (.messages (m :: ms)) extra =
        self.encoding_for_model self.model
          (dumpsList (((m :: ms).map Message.to_dict) ++ [Message.to_dict (.User extra)])))
    ∧ (∀ d ds extra, self.calculate_tokens (.dicts (d :: ds)) extra =
        self.calculate_tokens (.dicts (d :: ds)) "")
    ∧ (∀ s extra, self.calculate_tokens (.str s) extra =
        self.encoding_for_model self.model (s ++ extra))
    ∧ (∀ extra, self.calculate_tokens (.messages []) extra =
        self.encoding_for_model self.model ("[]" ++ extra))
    ∧ (∀ extra, self.calculate_tokens (.dicts []) extra =
        self.encoding_for_model self.model ("[]" ++ extra)) :=
  ⟨fun _ _ _ => rfl, fun _ _ _ => rfl, fun _ _ => rfl, fun _ => rfl, fun _ => rfl⟩

end LLMVM
